import Mathlib

/-!
Shallow embedding of the PPStory reel-assembly pipeline (src/app.py).

Times and durations are modelled as rationals (`ℚ`); Python floats enter only
through comparisons and simple arithmetic, so none of the checked claims
depends on float rounding.  Randomness (`random.uniform`) is modelled by an
oracle whose draws are universally quantified, with range hypotheses matching
the interval passed to `random.uniform`.  A moviepy video handle is modelled by
the attributes the code actually consults; exceptions raised by external calls
are modelled by explicit flags or by `Option` results, matching each
`try/except` in the source.
-/

namespace PPStory

/-! ## Motion analyzer: `detect_interesting_moments` (src/app.py lines 69-156) -/

/-- A decoded frame, abstracted as a flat list of pixel values
(`numpy` array contents). -/
abbrev Frame := List ℚ

/-- Model of `np.mean(np.abs(frame1.astype(float) - frame2.astype(float)))`
(line 126): element-wise absolute difference, averaged over the element count.
The two frames of one video have equal shape. -/
def meanAbsDiff (f1 f2 : Frame) : ℚ :=
  (List.zipWith (fun a b => |a - b|) f1 f2).sum / (f1.length : ℚ)

/-- Model of a moviepy `VideoFileClip` handle as seen by
`detect_interesting_moments`:

* `durationRaises`: accessing `.duration` raises (caught at line 79);
* `duration`: the `.duration` attribute (`none` models Python `None`);
* `readerOk`: `hasattr(video_clip, 'get_frame') and video_clip.reader is not None`
  (line 89);
* `frame t`: result of `video_clip.get_frame(t)`; `none` models both an
  exception and a `None` return, each of which makes the caller skip. -/
structure VideoHandle where
  durationRaises : Bool
  duration : Option ℚ
  readerOk : Bool
  frame : ℚ → Option Frame

/-- Oracle for the `random.uniform` draws of `detect_interesting_moments`:
`offA` is the `uniform(0.1, 0.5)` draw of line 102, `offB` the
`uniform(0.15, 0.55)` draw of line 135, and `lens i` the i-th
`uniform(2.5, 4)` draw of line 146. -/
structure RandOracle where
  offA : ℚ
  offB : ℚ
  lens : ℕ → ℚ

/-- The sampling loop `for i in range(sample_count)` of lines 114-130, over
the list of loop indices; `time = i * sample_interval`.  The guard
`if time + 1 > duration: break` (line 116) terminates the whole loop
(discarding the remaining indices); a frame that fails to decode (exception or
`None`, lines 123-130) skips just that sample. -/
def motionLoop (v : VideoHandle) (duration sample_interval : ℚ) :
    List ℕ → List (ℚ × ℚ)
  | [] => []
  | i :: rest =>
    let time : ℚ := (i : ℚ) * sample_interval
    if duration < time + 1 then []
    else
      match v.frame time, v.frame (min (time + 1/2) (duration - 1/10)) with
      | some f1, some f2 =>
          (time, meanAbsDiff f1 f2) :: motionLoop v duration sample_interval rest
      | _, _ => motionLoop v duration sample_interval rest

/-- Stable insertion step for the descending sort by motion score.  An element
is placed before the first element of strictly smaller score, after elements of
equal score that came earlier in the list. -/
def insertByScore (x : ℚ × ℚ) : List (ℚ × ℚ) → List (ℚ × ℚ)
  | [] => [x]
  | y :: ys => if y.2 ≤ x.2 then x :: y :: ys else y :: insertByScore x ys

/-- Model of `motion_scores.sort(key=lambda x: x[1], reverse=True)` (line 141).
Python's sort is stable, and a stable sort's output is determined by the key
order alone, so this stable insertion sort produces the same list. -/
def sortByScoreDesc (l : List (ℚ × ℚ)) : List (ℚ × ℚ) :=
  l.foldr insertByScore []

/-- The per-moment adjustment of lines 145-152: shrink a segment that would
overrun the duration; if the shrunk length drops below 1s, re-anchor to the
last 4 seconds of the clip. -/
def adjustMoment (duration start_time clip_duration : ℚ) : ℚ × ℚ :=
  if duration < start_time + clip_duration then
    let cd := duration - start_time - 1/10
    if cd < 1 then
      let st := max 0 (duration - 4)
      (st, min 4 (duration - st - 1/10))
    else (start_time, cd)
  else (start_time, clip_duration)

/-- The selection loop of lines 143-154: for each `i < min(num_clips,
len(motion_scores))`, take the i-th best-scored timestamp, draw a random
length, and adjust it to fit. -/
def selectMoments (duration : ℚ) (lens : ℕ → ℚ) (sorted : List (ℚ × ℚ))
    (k : ℕ) : List (ℚ × ℚ) :=
  (List.range k).map fun i => adjustMoment duration (sorted.getD i (0, 0)).1 (lens i)

/-- Model of `detect_interesting_moments(video_clip, num_clips=2)`
(src/app.py lines 69-156). -/
def detect_interesting_moments (video_clip : Option VideoHandle)
    (rnd : RandOracle) (num_clips : ℕ := 2) : List (ℚ × ℚ) :=
  match video_clip with
  | none => [(0, 2)]
  | some v =>
    if v.durationRaises then [(0, 2)]
    else
      match v.duration with
      | none => [(0, 2)]
      | some duration =>
        if duration ≤ 0 then [(0, 2)]
        else if duration < 2 then [(0, min duration 2)]
        else
          let can_read_frames := v.readerOk && (v.frame 0).isSome
          if can_read_frames = false then
            let segment := min 4 (duration * (2/5))
            let start := duration * rnd.offA
            let start :=
              if duration < start + segment then max 0 (duration - segment - 1/10)
              else start
            [(start, segment)]
          else
            let sample_count := min 15 (⌊duration⌋.toNat)
            let sample_interval := duration / (sample_count : ℚ)
            let motion_scores :=
              motionLoop v duration sample_interval (List.range sample_count)
            if motion_scores.isEmpty then
              let segment := min 4 (duration * (2/5))
              let start := duration * rnd.offB
              let start :=
                if duration < start + segment then max 0 (duration - segment - 1/10)
                else start
              [(start, segment)]
            else
              selectMoments duration rnd.lens (sortByScoreDesc motion_scores)
                (min num_clips motion_scores.length)

/-! ## Clip transform stage: `create_reel` (src/app.py lines 158-462) -/

/-- One entry of the `video_settings` input:
`{order, trim_start, trim_end, filename}` (spec section 3).  `trim_start` and
`trim_end` are read with `vs.get('trim_start', 0)` / `vs.get('trim_end',
duration)` (lines 206-207), so a missing key is `none`. -/
structure ClipSettings where
  order : ℕ
  trim_start : Option ℚ
  trim_end : Option ℚ
  filename : String
deriving DecidableEq

/-- The settings map of lines 167-175: `settings_map[video_paths[vs['order']]]
= vs` for every entry whose `order` is in range.  Source paths are distinct
files of one session folder, so keying by path is keying by index; a later
entry with the same `order` overwrites an earlier one, as in a Python dict. -/
def buildSettingsMap (video_settings : List ClipSettings) (nPaths : ℕ) :
    ℕ → Option ClipSettings :=
  video_settings.foldl
    (fun m vs =>
      if vs.order < nPaths then fun i => if i = vs.order then some vs else m i
      else m)
    (fun _ => none)

/-- The trim-window computation of lines 200-210: defaults `(0, duration)`
without matched settings; with matched settings the requested times are read
with defaults 0 / `duration`, then
`trim_start = max(0, min(trim_start, duration))` and
`trim_end = max(trim_start + 0.5, min(trim_end, duration))`. -/
def computeTrim (settings : Option ClipSettings) (duration : ℚ) : ℚ × ℚ :=
  match settings with
  | none => (0, duration)
  | some vs =>
    let trim_start := vs.trim_start.getD 0
    let trim_end := vs.trim_end.getD duration
    let trim_start := max 0 (min trim_start duration)
    let trim_end := max (trim_start + 1/2) (min trim_end duration)
    (trim_start, trim_end)

/-- Model of one source video as seen by the per-video loop of `create_reel`
(lines 177-256):

* `pathExists`: `os.path.exists(video_path)` (line 182);
* `loadRaises`: `VideoFileClip(video_path)` raises (caught at line 248, no
  handle was bound);
* `loadNone`: the constructor returned `None` (line 188);
* `duration`: the `.duration` attribute; `none` models both `None` and an
  attribute access that raises — either way the clip is skipped after the
  handle is closed;
* `subclipNone`: `_subclip_compat` returns `None` (lines 56-67, 224);
* `transformRaises`: `resized` / `without_audio` / `cropped` raises, landing in
  the outer handler of line 248, which closes the handle (not yet in
  `source_clips`);
* `hasAudio`: `clip.audio is not None` (line 233);
* `w`, `h`: frame dimensions; proportional resize keeps the ratio used by the
  crop test `clip.w / clip.h > 9/16` (line 238). -/
structure ReelVideo where
  pathExists : Bool
  loadRaises : Bool
  loadNone : Bool
  duration : Option ℚ
  subclipNone : Bool
  transformRaises : Bool
  hasAudio : Bool
  w : ℚ
  h : ℚ
deriving DecidableEq

/-- Why a source video was soft-skipped, one constructor per `continue` site of
the loop (lines 182-256). -/
inductive SkipReason where
  | fileMissing
  | loadFailed
  | loadNone
  | badDuration
  | trimTooShort
  | subclipFailed
  | transformFailed
deriving DecidableEq

/-- A clip that survived the transform stage, with the data the later stages
observe. -/
structure AcceptedClip where
  trim_start : ℚ
  trim_end : ℚ
  muted : Bool
  cropped : Bool
deriving DecidableEq

/-- Outcome of one iteration of the per-video loop.  `handleOpened` records
whether a `VideoFileClip` handle was successfully constructed before the skip;
every skip path that opened a handle also closes it (lines 195, 219, 226 and
the outer handler at lines 251-255). -/
inductive StepOutcome where
  | skip (reason : SkipReason) (handleOpened : Bool)
  | accept (c : AcceptedClip)
deriving DecidableEq

/-- One iteration of the per-video loop of `create_reel` (lines 177-256). -/
def processVideo (mute_videos : Bool) (v : ReelVideo)
    (settings : Option ClipSettings) : StepOutcome :=
  if v.pathExists = false then .skip .fileMissing false
  else if v.loadRaises then .skip .loadFailed false
  else if v.loadNone then .skip .loadNone false
  else
    match v.duration with
    | none => .skip .badDuration true
    | some duration =>
      if duration ≤ 0 then .skip .badDuration true
      else
        let tw := computeTrim settings duration
        let clip_duration := tw.2 - tw.1
        if clip_duration < 1/2 then .skip .trimTooShort true
        else if v.subclipNone then .skip .subclipFailed true
        else if v.transformRaises then .skip .transformFailed true
        else
          .accept { trim_start := tw.1, trim_end := tw.2,
                    muted := mute_videos && v.hasAudio,
                    cropped := decide ((9 : ℚ)/16 < v.w / v.h) }

/-- The accepted clip of a step, if any (`clips_to_compile.append`, line 245). -/
def stepClip : StepOutcome → Option AcceptedClip
  | .accept c => some c
  | .skip _ _ => none

/-- Whether the step opened a decoded source handle. -/
def stepOpens : StepOutcome → Bool
  | .skip _ b => b
  | .accept _ => true

/-- Whether the step closed its handle inside the loop (every skip that opened
one does). -/
def stepClosedInLoop : StepOutcome → Bool
  | .skip _ b => b
  | .accept _ => false

/-- Whether the step kept its handle open in `source_clips` (line 246). -/
def stepKept : StepOutcome → Bool
  | .accept _ => true
  | .skip _ _ => false

/-! ## Captions (src/app.py lines 281-374) -/

/-- One caption of the `captions` input; optional fields are read with
`cap.get(...)` (lines 294-302). -/
structure Caption where
  text : String
  startTime : Option ℚ
  endTime : Option ℚ
  position : Option String
  color : Option String
deriving DecidableEq

/-- Model of `cap.get('text', '').strip()` being empty (lines 294-296): the
text is empty or consists only of whitespace. -/
def strippedEmpty (s : String) : Bool :=
  s.toList.all fun c => c == ' ' || c == '\t' || c == '\n' || c == '\r'

/-- The caption time clamp of lines 305-307:
`start_time = max(0, min(start_time, duration))`,
`end_time = max(start_time + 0.1, min(end_time, duration))`. -/
def clampCaption (duration start_time end_time : ℚ) : ℚ × ℚ :=
  let s := max 0 (min start_time duration)
  let e := max (s + 1/10) (min end_time duration)
  (s, e)

/-- The caption loop of lines 293-366, restricted to the timing data: a caption
whose text is empty after `strip()` produces no overlay (lines 294-296); every
other caption produces one overlay with the clamped `(start_time, end_time)`.
Position, colour and font resolution affect only rendering, not timing, and
are not modelled. -/
def captionOverlays (duration : ℚ) (captions : List Caption) : List (ℚ × ℚ) :=
  captions.filterMap fun cap =>
    if strippedEmpty cap.text then none
    else some (clampCaption duration (cap.startTime.getD 0) (cap.endTime.getD 3))

/-! ## Music (src/app.py lines 376-411) -/

/-- `loops_needed = int(final_clip.duration / music_clip.duration) + 1`
(line 385); both durations are positive in this branch, so `int` truncation is
the floor. -/
def loops_needed (final_duration music_duration : ℚ) : ℤ :=
  ⌊final_duration / music_duration⌋ + 1

/-- Duration of `concatenate_audioclips([music_clip] * loops_needed)
.subclipped(0, final_clip.duration)` (line 386).  The subclip is valid — and
has span `final_duration - 0` — only when the concatenation covers the
timeline, hence the `Option`. -/
def loopedMusicDuration (final_duration music_duration : ℚ) : Option ℚ :=
  let concatDuration := (loops_needed final_duration music_duration : ℚ) * music_duration
  if final_duration ≤ concatDuration then some final_duration else none

/-- Model of the music track as seen by `create_reel`: `decodeRaises` is
`AudioFileClip(music_path)` raising (caught at line 409), `duration` its
duration, `fadeRaises` / `volumeRaises` the inner failures of lines 398 and
405. -/
structure MusicEnv where
  decodeRaises : Bool
  duration : ℚ
  fadeRaises : Bool
  volumeRaises : Bool
deriving DecidableEq

/-! ## The whole `create_reel` pipeline -/

/-- Environment of one `create_reel` call.  `music = some m` models
`music_path` being given and `os.path.exists(music_path)` (line 377).
`concatRaises`, `captionStageRaises` and `writeRaises` model exceptions raised
by `concatenate_videoclips` (caught at line 270), by anything inside the
caption block (caught at line 372) and by `write_videofile` (caught at line
430). -/
structure ReelEnv where
  video_paths : List ReelVideo
  video_settings : List ClipSettings
  captions : List Caption
  music : Option MusicEnv
  mute_videos : Bool
  music_fade : ℚ
  concatRaises : Bool
  captionStageRaises : Bool
  writeRaises : Bool
  output_filename : String

/-- The loop `for i, video_path in enumerate(video_paths)` of lines 177-256:
`i` is the current index, each video is processed in order. -/
def transformLoop (mute_videos : Bool) (smap : ℕ → Option ClipSettings) :
    ℕ → List ReelVideo → List StepOutcome
  | _, [] => []
  | i, v :: rest =>
    processVideo mute_videos v (smap i) :: transformLoop mute_videos smap (i + 1) rest

/-- The transform stage: the loop of lines 177-256 over all input paths, with
the settings map of lines 167-175. -/
def transformOutcomes (env : ReelEnv) : List StepOutcome :=
  transformLoop env.mute_videos
    (buildSettingsMap env.video_settings env.video_paths.length) 0 env.video_paths

/-- `clips_to_compile` after the loop. -/
def acceptedClips (env : ReelEnv) : List AcceptedClip :=
  (transformOutcomes env).filterMap stepClip

/-- Number of source handles opened by the loop. -/
def openedCount (env : ReelEnv) : ℕ :=
  ((transformOutcomes env).filter stepOpens).length

/-- Number of source handles closed inside the loop (soft-skip paths). -/
def closedInLoopCount (env : ReelEnv) : ℕ :=
  ((transformOutcomes env).filter stepClosedInLoop).length

/-- Number of source handles kept open in `source_clips` after the loop. -/
def keptCount (env : ReelEnv) : ℕ :=
  ((transformOutcomes env).filter stepKept).length

/-- Observable outcome of one `create_reel` call.

* `result`: the raised exception's message, or the returned output path;
* `outputWritten`: whether `write_videofile` produced the artifact;
* `opened` / `closedInLoop` / `closedAtEnd`: handle accounting — every exit
  path of `create_reel` (the zero-clips raise at lines 258-264, the
  concatenation raise at lines 270-278, the write-failure raise at lines
  430-443 and the success path at lines 445-460) closes all of `source_clips`,
  so `closedAtEnd` is the kept-handle count on each of them;
* `overlays`: the clamped caption overlays composited onto the timeline
  (empty when the caption stage was skipped or failed);
* `boundAudio`: duration of the music bound by `with_audio` (line 407), `none`
  when no music was bound;
* `fadeApplied` / `volumeApplied`: whether the fade and volume effects of
  lines 392-406 were applied (their failures are caught and ignored). -/
structure ReelRun where
  result : Except String String
  outputWritten : Bool
  opened : ℕ
  closedInLoop : ℕ
  closedAtEnd : ℕ
  overlays : List (ℚ × ℚ)
  boundAudio : Option ℚ
  fadeApplied : Bool
  volumeApplied : Bool

/-- `final_clip.duration` after concatenation (line 268): the sum of the
trimmed spans (resize and crop do not change a clip's duration). -/
def finalDuration (env : ReelEnv) : ℚ :=
  ((acceptedClips env).map fun c => c.trim_end - c.trim_start).sum

/-- The caption stage (lines 281-374): skipped when no captions were supplied;
any exception inside it is caught at line 372 and the pipeline continues with
no overlays. -/
def reelOverlays (env : ReelEnv) : List (ℚ × ℚ) :=
  if env.captions.isEmpty then []
  else if env.captionStageRaises then []
  else captionOverlays (finalDuration env) env.captions

/-- The music stage (lines 376-411): duration of the audio bound to the
timeline by `with_audio`, or `none` when no music was given or its decode
raised (caught at line 409). -/
def reelBoundAudio (env : ReelEnv) : Option ℚ :=
  match env.music with
  | none => none
  | some m =>
    if m.decodeRaises then none
    else if m.duration < finalDuration env then
      loopedMusicDuration (finalDuration env) m.duration
    else some (finalDuration env)

/-- Whether the fade in/out effect of lines 392-399 was applied: requires
music that decoded, a positive `music_fade`, and no failure of the effect
(a failure is caught at line 398 and ignored). -/
def reelFadeApplied (env : ReelEnv) : Bool :=
  match env.music with
  | none => false
  | some m => !m.decodeRaises && decide (0 < env.music_fade) && !m.fadeRaises

/-- Whether the volume attenuation of lines 401-406 was applied (a failure is
caught at line 405 and ignored). -/
def reelVolumeApplied (env : ReelEnv) : Bool :=
  match env.music with
  | none => false
  | some m => !m.decodeRaises && !m.volumeRaises

/-- Model of `create_reel` (src/app.py lines 158-462). -/
def create_reel (env : ReelEnv) : ReelRun :=
  if (acceptedClips env).isEmpty then
    { result := .error "No clips could be extracted from any video",
      outputWritten := false,
      opened := openedCount env, closedInLoop := closedInLoopCount env,
      closedAtEnd := keptCount env,
      overlays := [], boundAudio := none,
      fadeApplied := false, volumeApplied := false }
  else if env.concatRaises then
    { result := .error "concatenation failed",
      outputWritten := false,
      opened := openedCount env, closedInLoop := closedInLoopCount env,
      closedAtEnd := keptCount env,
      overlays := [], boundAudio := none,
      fadeApplied := false, volumeApplied := false }
  else if env.writeRaises then
    { result := .error "write failed",
      outputWritten := false,
      opened := openedCount env, closedInLoop := closedInLoopCount env,
      closedAtEnd := keptCount env,
      overlays := reelOverlays env, boundAudio := reelBoundAudio env,
      fadeApplied := reelFadeApplied env, volumeApplied := reelVolumeApplied env }
  else
    { result := .ok ("outputs/" ++ env.output_filename),
      outputWritten := true,
      opened := openedCount env, closedInLoop := closedInLoopCount env,
      closedAtEnd := keptCount env,
      overlays := reelOverlays env, boundAudio := reelBoundAudio env,
      fadeApplied := reelFadeApplied env, volumeApplied := reelVolumeApplied env }

/-! ## Job orchestrator (src/app.py lines 8-10, 464-485, 616-637) -/

/-- A Python dict keyed by session id, as a partial map. -/
abbrev StrMap (α : Type) := String → Option α

/-- `m[k] = v`. -/
def dictSet {α : Type} (m : StrMap α) (k : String) (v : α) : StrMap α :=
  fun x => if x = k then some v else m x

/-- `m.pop(k, None)`'s effect on the dict. -/
def dictPop {α : Type} (m : StrMap α) (k : String) : StrMap α :=
  fun x => if x = k then none else m x

/-- A `job_results` payload: `{'success': True, 'download_url': ...}` on
completion, `{'error': str(e)}` on failure; `empty` is the `{}` default of
line 622. -/
inductive JobResult where
  | success (download_url : String)
  | error (msg : String)
  | empty
deriving DecidableEq

/-- The server's shared state: the two global dicts (lines 9-10) plus the
output folder, observed through `os.path.exists(outputs/<sid>.mp4)`
(lines 634-635). -/
structure ServerState where
  job_status : StrMap String
  job_results : StrMap JobResult
  outputExists : String → Bool

/-- Model of `create_reel_async` (lines 464-485): run the pipeline, record the
terminal state in the two dicts. -/
def create_reel_async (env : ReelEnv) (session_id : String)
    (st : ServerState) : ServerState × ReelRun :=
  let run := create_reel env
  match run.result with
  | .ok _ =>
    ({ st with
        job_status := dictSet st.job_status session_id "completed",
        job_results := dictSet st.job_results session_id
          (.success ("/download/" ++ session_id)) }, run)
  | .error e =>
    ({ st with
        job_status := dictSet st.job_status session_id "failed",
        job_results := dictSet st.job_results session_id (.error e) }, run)

/-- The JSON body returned by `/status/<session_id>` (lines 616-637). -/
inductive StatusResponse where
  | completed (r : JobResult)
  | failed (r : JobResult)
  | processing
  | completedFallback (download_url : String)
  | notFound
deriving DecidableEq

/-- Model of `check_status` (src/app.py lines 616-637): returns the response
and the server state after the poll. -/
def check_status (st : ServerState) (session_id : String) :
    StatusResponse × ServerState :=
  let status := (st.job_status session_id).getD "unknown"
  if status = "completed" then
    (.completed ((st.job_results session_id).getD .empty),
     { st with job_status := dictPop st.job_status session_id,
               job_results := dictPop st.job_results session_id })
  else if status = "failed" then
    (.failed ((st.job_results session_id).getD (.error "Unknown error")),
     { st with job_status := dictPop st.job_status session_id,
               job_results := dictPop st.job_results session_id })
  else if status = "processing" then
    (.processing, st)
  else if st.outputExists session_id then
    (.completedFallback ("/download/" ++ session_id), st)
  else
    (.notFound, st)

/-! ## Concrete instances used by witnesses and counterexamples -/

/-- A 10-second fully decodable video whose only motion spike is at `t = 8`
(frames differ across the `t = 8 … 8.5` boundary). -/
def videoSpikeAt8 : VideoHandle :=
  { durationRaises := false, duration := some 10, readerOk := true,
    frame := fun t => some [if t = 8 then 100 else 0] }

/-- A 10-second fully decodable video with constant frames. -/
def videoFlat10 : VideoHandle :=
  { durationRaises := false, duration := some 10, readerOk := true,
    frame := fun _ => some [0] }

/-- A 20-second video on which frames cannot be decoded. -/
def videoNoDecode20 : VideoHandle :=
  { durationRaises := false, duration := some 20, readerOk := false,
    frame := fun _ => none }

/-- A random oracle: fallback offsets 0.3, every segment-length draw 3. -/
def rndLen3 : RandOracle := { offA := 3/10, offB := 3/10, lens := fun _ => 3 }

/-- A random oracle with fallback offset 0.25. -/
def rndOff25 : RandOracle := { offA := 1/4, offB := 3/10, lens := fun _ => 3 }

/-- A loadable, transformable 10-second source video (1920x1080, with audio). -/
def videoGood10 : ReelVideo :=
  { pathExists := true, loadRaises := false, loadNone := false,
    duration := some 10, subclipNone := false, transformRaises := false,
    hasAudio := true, w := 1920, h := 1080 }

/-- A source path that does not exist. -/
def videoMissing : ReelVideo :=
  { pathExists := false, loadRaises := false, loadNone := false,
    duration := none, subclipNone := false, transformRaises := false,
    hasAudio := false, w := 0, h := 0 }

/-- Matched trim settings requesting the collapsed window `[5, 5.1]`
(span 0.1s, below the 0.5s minimum). -/
def settingsCollapsed : ClipSettings :=
  { order := 0, trim_start := some 5, trim_end := some (51/10), filename := "a.mp4" }

/-- Environment for one good 10s video with the collapsed trim request. -/
def envCollapsedTrim : ReelEnv :=
  { video_paths := [videoGood10], video_settings := [settingsCollapsed],
    captions := [], music := none, mute_videos := false, music_fade := 2,
    concatRaises := false, captionStageRaises := false, writeRaises := false,
    output_filename := "reel.mp4" }

/-- Environment whose only source file is missing: zero clips survive. -/
def envNoClips : ReelEnv :=
  { video_paths := [videoMissing], video_settings := [], captions := [],
    music := none, mute_videos := false, music_fade := 2,
    concatRaises := false, captionStageRaises := false, writeRaises := false,
    output_filename := "reel.mp4" }

/-- A caption requesting the window `[10, 12]`. -/
def captionPastEnd : Caption :=
  { text := "hello", startTime := some 10, endTime := some 12,
    position := none, color := none }

/-- A caption requesting the window `[1, 2]`. -/
def captionEarly : Caption :=
  { text := "hi", startTime := some 1, endTime := some 2,
    position := none, color := none }

/-- A music track whose decode, fade and volume operations all fail. -/
def musicAllFail : MusicEnv :=
  { decodeRaises := true, duration := 7, fadeRaises := true, volumeRaises := true }

/-- Environment for one good video with a caption stage that raises and a music
track that fails to decode. -/
def envBestEffort : ReelEnv :=
  { video_paths := [videoGood10], video_settings := [], captions := [captionEarly],
    music := some musicAllFail, mute_videos := false, music_fade := 2,
    concatRaises := false, captionStageRaises := true, writeRaises := false,
    output_filename := "reel.mp4" }

/-- Server state with a completed job for session "sid" and no output file. -/
def stateCompleted : ServerState :=
  { job_status := fun x => if x = "sid" then some "completed" else none,
    job_results := fun x => if x = "sid" then some (.success "/download/sid") else none,
    outputExists := fun _ => false }

/-- Server state with a processing job for session "sid". -/
def stateProcessing : ServerState :=
  { job_status := fun x => if x = "sid" then some "processing" else none,
    job_results := fun _ => none,
    outputExists := fun _ => false }

/-- Server state with no records at all. -/
def stateIdle : ServerState :=
  { job_status := fun _ => none, job_results := fun _ => none,
    outputExists := fun _ => false }

/-! ## Helper lemmas -/

theorem selectMoments_length (d : ℚ) (lens : ℕ → ℚ) (s : List (ℚ × ℚ)) (k : ℕ) :
    (selectMoments d lens s k).length = k := by
  simp [selectMoments]

theorem selectMoments_ne_nil (d : ℚ) (lens : ℕ → ℚ) (s : List (ℚ × ℚ)) (k : ℕ)
    (hk : k ≠ 0) : selectMoments d lens s k ≠ [] := by
  intro h
  have hl := selectMoments_length d lens s k
  rw [h] at hl
  exact hk hl.symm

theorem selectMoments_mem (d : ℚ) (lens : ℕ → ℚ) (s : List (ℚ × ℚ)) (k : ℕ)
    (x : ℚ × ℚ) (hx : x ∈ selectMoments d lens s k) :
    ∃ i, i < k ∧ x = adjustMoment d (s.getD i (0, 0)).1 (lens i) := by
  simp only [selectMoments, List.mem_map, List.mem_range] at hx
  obtain ⟨i, hi, hxi⟩ := hx
  exact ⟨i, hi, hxi.symm⟩

theorem insertByScore_mem (x y : ℚ × ℚ) (l : List (ℚ × ℚ)) :
    y ∈ insertByScore x l ↔ y = x ∨ y ∈ l := by
  induction l with
  | nil => simp [insertByScore]
  | cons a l ih =>
    rw [insertByScore]
    split
    · simp
    · simp only [List.mem_cons, ih]
      tauto

theorem insertByScore_length (x : ℚ × ℚ) (l : List (ℚ × ℚ)) :
    (insertByScore x l).length = l.length + 1 := by
  induction l with
  | nil => rfl
  | cons a l ih =>
    rw [insertByScore]
    split <;> simp [ih]

theorem sortByScoreDesc_mem (l : List (ℚ × ℚ)) (y : ℚ × ℚ)
    (h : y ∈ sortByScoreDesc l) : y ∈ l := by
  induction l with
  | nil => simp [sortByScoreDesc] at h
  | cons a l ih =>
    have h' : y ∈ insertByScore a (sortByScoreDesc l) := h
    rw [insertByScore_mem] at h'
    rcases h' with h' | h'
    · simp [h']
    · simp [ih h']

theorem sortByScoreDesc_length (l : List (ℚ × ℚ)) :
    (sortByScoreDesc l).length = l.length := by
  induction l with
  | nil => rfl
  | cons a l ih =>
    have hu : sortByScoreDesc (a :: l) = insertByScore a (sortByScoreDesc l) := rfl
    rw [hu, insertByScore_length, ih, List.length_cons]

theorem getD_mem {α : Type} (l : List α) (i : ℕ) (d : α) (h : i < l.length) :
    l.getD i d ∈ l := by
  rw [List.getD_eq_getElem l d h]
  exact List.getElem_mem h

theorem motionLoop_mem (v : VideoHandle) (d si : ℚ) (hsi : 0 ≤ si) :
    ∀ (idxs : List ℕ) (x : ℚ × ℚ), x ∈ motionLoop v d si idxs →
      0 ≤ x.1 ∧ x.1 + 1 ≤ d := by
  intro idxs
  induction idxs with
  | nil => intro x hx; simp [motionLoop] at hx
  | cons i rest ih =>
    intro x hx
    rw [motionLoop] at hx
    by_cases hg : d < (i : ℚ) * si + 1
    · rw [if_pos hg] at hx
      simp at hx
    · rw [if_neg hg] at hx
      rcases h1 : v.frame ((i : ℚ) * si) with _ | f1 <;>
        rcases h2 : v.frame (min ((i : ℚ) * si + 1/2) (d - 1/10)) with _ | f2 <;>
        rw [h1, h2] at hx
      · exact ih x hx
      · exact ih x hx
      · exact ih x hx
      · rcases List.mem_cons.mp hx with hx | hx
        · subst hx
          refine ⟨mul_nonneg (Nat.cast_nonneg i) hsi, ?_⟩
          exact not_lt.mp hg
        · exact ih x hx

theorem motionLoop_length_full (v : VideoHandle) (d si : ℚ)
    (hframe : ∀ t, (v.frame t).isSome = true) :
    ∀ idxs : List ℕ, (∀ i ∈ idxs, (i : ℚ) * si + 1 ≤ d) →
      (motionLoop v d si idxs).length = idxs.length := by
  intro idxs
  induction idxs with
  | nil => intro _; rfl
  | cons i rest ih =>
    intro hk
    rw [motionLoop]
    have h0 : (i : ℚ) * si + 1 ≤ d := hk i (List.mem_cons_self i rest)
    rw [if_neg (not_lt.mpr h0)]
    obtain ⟨f1, hf1⟩ := Option.isSome_iff_exists.mp (hframe ((i : ℚ) * si))
    obtain ⟨f2, hf2⟩ :=
      Option.isSome_iff_exists.mp (hframe (min ((i : ℚ) * si + 1/2) (d - 1/10)))
    rw [hf1, hf2]
    simp only [List.length_cons]
    rw [ih fun j hj => hk j (List.mem_cons_of_mem i hj)]

theorem adjustMoment_bounds (d s len : ℚ) (hd : 2 ≤ d) (hs0 : 0 ≤ s)
    (hl1 : 5/2 ≤ len) (hl2 : len ≤ 4) :
    0 ≤ (adjustMoment d s len).1 ∧ 1 ≤ (adjustMoment d s len).2 ∧
      (adjustMoment d s len).2 ≤ 4 ∧
      (adjustMoment d s len).1 + (adjustMoment d s len).2 ≤ d := by
  rw [adjustMoment]
  simp only [max_def, min_def]
  split_ifs <;>
    exact ⟨by linarith, by linarith, by linarith, by linarith⟩

theorem opens_eq_closed_add_kept (l : List StepOutcome) :
    (l.filter stepOpens).length =
      (l.filter stepClosedInLoop).length + (l.filter stepKept).length := by
  induction l with
  | nil => rfl
  | cons o l ih =>
    cases o with
    | skip r b =>
      cases b <;> simp [stepOpens, stepClosedInLoop, stepKept, List.filter_cons, ih] <;>
        try omega
    | accept c =>
      simp [stepOpens, stepClosedInLoop, stepKept, List.filter_cons, ih]
      omega

/-! ## Claim theorems -/

/-- C5: a music track shorter than the timeline is looped by whole-track
concatenation (`int(final/music) + 1` copies) and truncated, and the resulting
audio duration equals the timeline duration exactly — the concatenation always
covers the timeline, so the truncating subclip is valid and yields exactly the
timeline duration. -/
theorem C5_loop_exact (F M : ℚ) (hM : 0 < M) (hMF : M < F) :
    loopedMusicDuration F M = some F := by
  have hM0 : M ≠ 0 := ne_of_gt hM
  have h1 : F / M < (⌊F / M⌋ : ℚ) + 1 := Int.lt_floor_add_one _
  have h2 : F / M * M ≤ ((⌊F / M⌋ : ℚ) + 1) * M :=
    mul_le_mul_of_nonneg_right h1.le hM.le
  rw [div_mul_cancel₀ _ hM0] at h2
  have key : F ≤ ((loops_needed F M : ℤ) : ℚ) * M := by
    unfold loops_needed
    push_cast
    linarith
  simp [loopedMusicDuration, key]

/-- C5 witness: a 2s track under a 5s timeline is looped to exactly 5s. -/
theorem C5_loop_exact_witness :
    (0 : ℚ) < 2 ∧ (2 : ℚ) < 5 ∧ loopedMusicDuration 5 2 = some 5 :=
  ⟨by norm_num, by norm_num, C5_loop_exact 5 2 (by norm_num) (by norm_num)⟩

/-- C9: polling a session whose state is "processing" reports "processing" and
returns the server state unchanged — both job maps are untouched for every
session id. -/
theorem C9_processing_no_change (st : ServerState) (sid : String)
    (h : st.job_status sid = some "processing") :
    check_status st sid = (.processing, st) := by
  simp [check_status, h]

/-- C9 witness: polling the concrete processing state leaves it unchanged. -/
theorem C9_processing_no_change_witness :
    stateProcessing.job_status "sid" = some "processing" ∧
      check_status stateProcessing "sid" = (.processing, stateProcessing) :=
  ⟨rfl, C9_processing_no_change stateProcessing "sid" rfl⟩

/-- C10: for every video handle (including `None` and handles with missing or
invalid duration) and every requested count `num_clips ≥ 1`,
`detect_interesting_moments` returns a non-empty list: each fallback path
yields exactly one moment and the scored path yields at least one. -/
theorem C10_nonempty (video : Option VideoHandle) (rnd : RandOracle) (n : ℕ)
    (hn : 1 ≤ n) : detect_interesting_moments video rnd n ≠ [] := by
  cases video with
  | none => simp [detect_interesting_moments]
  | some v =>
    rw [detect_interesting_moments]
    by_cases hdr : v.durationRaises = true
    · simp [hdr]
    · simp only [hdr, if_false, Bool.not_eq_true] at *
      simp only [hdr, Bool.false_eq_true, if_false]
      cases hd : v.duration with
      | none => simp
      | some duration =>
        dsimp only
        by_cases h1 : duration ≤ 0
        · simp [h1]
        · rw [if_neg h1]
          by_cases h2 : duration < 2
          · simp [h2]
          · rw [if_neg h2]
            by_cases h3 : (v.readerOk && (v.frame 0).isSome) = false
            · simp [h3]
            · rw [if_neg h3]
              set ms := motionLoop v duration
                (duration / ((min 15 ⌊duration⌋.toNat : ℕ) : ℚ))
                (List.range (min 15 ⌊duration⌋.toNat)) with hms
              by_cases h4 : ms.isEmpty
              · simp [h4]
              · rw [if_neg h4]
                apply selectMoments_ne_nil
                have hlen : 0 < ms.length := by
                  cases hmse : ms with
                  | nil => rw [hmse] at h4; simp at h4
                  | cons a l => simp [hmse]
                have : 0 < min n ms.length := lt_min (by omega) hlen
                omega

/-- C10 witness: a `None` video handle still yields a non-empty moment list. -/
theorem C10_nonempty_witness :
    1 ≤ 2 ∧ detect_interesting_moments none rndLen3 2 ≠ [] :=
  ⟨by norm_num, C10_nonempty none rndLen3 2 (by norm_num)⟩

/-- C8: on a 20-second clip whose frames cannot be decoded, the analyzer
returns exactly one moment `(20 * offset, 4)` with
`4 = min(4, 40% of duration)`, offset drawn from `[0.1, 0.5]`, and the moment
satisfies `2 ≤ start ≤ 10` and `start + 4 ≤ 20` (the clamp never fires at this
duration). -/
theorem C8_nodecode_segment (v : VideoHandle) (rnd : RandOracle)
    (hdr : v.durationRaises = false) (hd : v.duration = some 20)
    (hcr : (v.readerOk && (v.frame 0).isSome) = false)
    (ho1 : 1/10 ≤ rnd.offA) (ho2 : rnd.offA ≤ 1/2) :
    detect_interesting_moments (some v) rnd 2 = [(20 * rnd.offA, 4)] ∧
      2 ≤ 20 * rnd.offA ∧ 20 * rnd.offA ≤ 10 ∧ 20 * rnd.offA + 4 ≤ 20 := by
  refine ⟨?_, by linarith, by linarith, by linarith⟩
  rw [detect_interesting_moments]
  simp only [hdr, Bool.false_eq_true, if_false, hd]
  rw [if_neg (by norm_num : ¬ (20 : ℚ) ≤ 0), if_neg (by norm_num : ¬ (20 : ℚ) < 2)]
  simp only [hcr, if_pos]
  have hseg : min (4 : ℚ) (20 * (2/5)) = 4 := by norm_num
  rw [hseg]
  rw [if_neg (by linarith : ¬ (20 : ℚ) < 20 * rnd.offA + 4)]

/-- C8 witness: the concrete non-decodable 20s clip with offset 0.25 yields the
single moment `(5, 4)`. -/
theorem C8_nodecode_segment_witness :
    (1 : ℚ)/10 ≤ (1 : ℚ)/4 ∧ (1 : ℚ)/4 ≤ 1/2 ∧
      (detect_interesting_moments (some videoNoDecode20) rndOff25 2 =
          [(20 * rndOff25.offA, 4)] ∧
        2 ≤ 20 * rndOff25.offA ∧ 20 * rndOff25.offA ≤ 10 ∧
        20 * rndOff25.offA + 4 ≤ 20) :=
  ⟨by norm_num, by norm_num,
    C8_nodecode_segment videoNoDecode20 rndOff25 rfl rfl rfl
      (by norm_num [rndOff25]) (by norm_num [rndOff25])⟩

/-- C6: polling a session id whose state is terminal (completed or failed)
reports the stored result and clears both the status and the result record in
the same poll; an immediately repeated poll on the same id falls through to
the absent-state path, reporting the output-artifact fallback if the artifact
exists and not_found otherwise. -/
theorem C6_terminal_consumed (st : ServerState) (sid : String)
    (h : st.job_status sid = some "completed" ∨ st.job_status sid = some "failed") :
    ((st.job_status sid = some "completed" →
        (check_status st sid).1 = .completed ((st.job_results sid).getD .empty)) ∧
      (st.job_status sid = some "failed" →
        (check_status st sid).1 =
          .failed ((st.job_results sid).getD (.error "Unknown error")))) ∧
      ((check_status st sid).2.job_status sid = none ∧
        (check_status st sid).2.job_results sid = none) ∧
      (check_status (check_status st sid).2 sid).1 =
        (if st.outputExists sid then .completedFallback ("/download/" ++ sid)
          else .notFound) := by
  rcases h with h | h <;>
    (simp [check_status, h, dictPop]; split <;> rfl)

/-- C6 witness: the concrete completed job is consumed by one poll; the second
poll reports not_found because no artifact exists. -/
theorem C6_terminal_consumed_witness :
    (stateCompleted.job_status "sid" = some "completed" ∨
        stateCompleted.job_status "sid" = some "failed") ∧
      (((stateCompleted.job_status "sid" = some "completed" →
          (check_status stateCompleted "sid").1 =
            .completed ((stateCompleted.job_results "sid").getD .empty)) ∧
        (stateCompleted.job_status "sid" = some "failed" →
          (check_status stateCompleted "sid").1 =
            .failed ((stateCompleted.job_results "sid").getD (.error "Unknown error")))) ∧
        (((check_status stateCompleted "sid").2.job_status "sid" = none ∧
          (check_status stateCompleted "sid").2.job_results "sid" = none)) ∧
        (check_status (check_status stateCompleted "sid").2 "sid").1 =
          (if stateCompleted.outputExists "sid" then
              .completedFallback ("/download/" ++ "sid")
            else .notFound)) :=
  ⟨Or.inl rfl, C6_terminal_consumed stateCompleted "sid" (Or.inl rfl)⟩

/-- C1 counterexample: the claim says a trim window collapsing below 0.5s makes
the clip excluded from the compilation; on the code, the matched clip with
requested window `[5, 5.1]` (span 0.1s < 0.5s) of a 10s video is clamped up to
`[5, 5.5]` and included in `clips_to_compile`, not excluded. -/
theorem C1_counterexample :
    (51 : ℚ)/10 - 5 < 1/2 ∧
      acceptedClips envCollapsedTrim =
        [{ trim_start := 5, trim_end := 11/2, muted := false, cropped := true }] := by
  constructor
  · norm_num
  · have hmap : buildSettingsMap [settingsCollapsed] 1 0 = some settingsCollapsed := by
      norm_num [buildSettingsMap, settingsCollapsed]
    have htrim : computeTrim (some settingsCollapsed) 10 = (5, 11/2) := by
      rw [computeTrim, settingsCollapsed]
      norm_num [min_def, max_def]
    have hstep : processVideo false videoGood10 (some settingsCollapsed) =
        .accept { trim_start := 5, trim_end := 11/2, muted := false, cropped := true } := by
      rw [processVideo, videoGood10]
      norm_num [htrim]
    rw [acceptedClips, transformOutcomes]
    show (transformLoop false (buildSettingsMap [settingsCollapsed] 1) 0
        [videoGood10]).filterMap stepClip = _
    rw [transformLoop, transformLoop, hmap, hstep]
    rfl

/-- C1 as amended: for every clip with matched trim settings the clamped span
`trim_end - trim_start` is never negative and never below the 0.5s minimum,
because a window collapsing below 0.5s is clamped up to span exactly 0.5s, so
the "trimmed clip too short" skip can never fire for a matched clip — the
clip is kept, not excluded. -/
theorem C1_trim_span (vs : ClipSettings) (duration : ℚ) (mute : Bool)
    (v : ReelVideo) :
    1/2 ≤ (computeTrim (some vs) duration).2 - (computeTrim (some vs) duration).1 ∧
      ∀ b, processVideo mute v (some vs) ≠ .skip .trimTooShort b := by
  constructor
  · rw [computeTrim]
    dsimp only
    have := le_max_left (max 0 (min (vs.trim_start.getD 0) duration) + 1/2)
      (min (vs.trim_end.getD duration) duration)
    linarith
  · intro b
    rw [processVideo]
    by_cases h1 : v.pathExists = false
    · simp [h1]
    · rw [if_neg h1]
      by_cases h2 : v.loadRaises = true
      · simp [h2]
      · rw [if_neg h2]
        by_cases h3 : v.loadNone = true
        · simp [h3]
        · rw [if_neg h3]
          cases hd : v.duration with
          | none => simp
          | some duration =>
            dsimp only
            by_cases h4 : duration ≤ 0
            · simp [h4]
            · rw [if_neg h4]
              have hspan : ¬ ((computeTrim (some vs) duration).2 -
                  (computeTrim (some vs) duration).1 < 1/2) := by
                rw [computeTrim]
                dsimp only
                have := le_max_left
                  (max 0 (min (vs.trim_start.getD 0) duration) + 1/2)
                  (min (vs.trim_end.getD duration) duration)
                push_neg
                linarith
              rw [if_neg hspan]
              split_ifs <;> simp

/-- C2 counterexample: the claim says every overlay has
`end_time ≤ timeline duration`; on the code, a caption requesting `[10, 12]`
on a 10s timeline is clamped to `(10, 10.1)`, whose end exceeds the timeline
duration. -/
theorem C2_counterexample :
    captionOverlays 10 [captionPastEnd] = [(10, 101/10)] ∧
      ¬ ((101 : ℚ)/10 ≤ 10) := by
  constructor
  · have hstrip : strippedEmpty captionPastEnd.text = false := by rfl
    rw [captionOverlays]
    simp only [List.filterMap_cons, List.filterMap_nil, hstrip, Bool.false_eq_true,
      if_false]
    rw [clampCaption, captionPastEnd]
    norm_num [min_def, max_def]
  · norm_num

/-- C2 as amended: on a timeline of non-negative duration, every caption
overlay satisfies `0 ≤ start_time ≤ duration` and
`end_time - start_time ≥ 0.1`, and `end_time ≤ duration` holds except when the
clamped start lies within 0.1s of the timeline end, in which case
`end_time = start_time + 0.1` may exceed the duration — i.e.
`end_time ≤ max duration (start_time + 0.1)`. -/
theorem C2_caption_bounds (d : ℚ) (captions : List Caption) (hd : 0 ≤ d) :
    ∀ x ∈ captionOverlays d captions,
      0 ≤ x.1 ∧ x.1 ≤ d ∧ 1/10 ≤ x.2 - x.1 ∧ x.2 ≤ max d (x.1 + 1/10) := by
  intro x hx
  rw [captionOverlays, List.mem_filterMap] at hx
  obtain ⟨cap, -, hcap⟩ := hx
  by_cases ht : strippedEmpty cap.text = true
  · rw [if_pos ht] at hcap; exact absurd hcap (by simp)
  · rw [if_neg ht, Option.some_inj] at hcap
    subst hcap
    rw [clampCaption]
    dsimp only
    simp only [max_def, min_def]
    split_ifs <;>
      exact ⟨by linarith, by linarith, by linarith, by linarith⟩

/-- C2 amended witness: a caption `[1, 2]` on a 5s timeline satisfies the
amended bounds. -/
theorem C2_caption_bounds_witness :
    (0 : ℚ) ≤ 5 ∧ ((1 : ℚ), (2 : ℚ)) ∈ captionOverlays 5 [captionEarly] ∧
      (0 ≤ ((1 : ℚ), (2 : ℚ)).1 ∧ ((1 : ℚ), (2 : ℚ)).1 ≤ 5 ∧
        1/10 ≤ ((1 : ℚ), (2 : ℚ)).2 - ((1 : ℚ), (2 : ℚ)).1 ∧
        ((1 : ℚ), (2 : ℚ)).2 ≤ max 5 (((1 : ℚ), (2 : ℚ)).1 + 1/10)) := by
  have hov : captionOverlays 5 [captionEarly] = [(1, 2)] := by
    have hstrip : strippedEmpty captionEarly.text = false := by rfl
    rw [captionOverlays]
    simp only [List.filterMap_cons, List.filterMap_nil, hstrip, Bool.false_eq_true,
      if_false]
    rw [clampCaption, captionEarly]
    norm_num [min_def, max_def]
  have hmem : ((1 : ℚ), (2 : ℚ)) ∈ captionOverlays 5 [captionEarly] := by
    rw [hov]
    exact List.mem_singleton.mpr rfl
  exact ⟨by norm_num, hmem,
    C2_caption_bounds 5 [captionEarly] (by norm_num) (1, 2) hmem⟩

/-- C3: if zero clips survive the transform stage, `create_reel` raises the
explicit "No clips could be extracted from any video" error, every decoded
source handle opened so far has been released (opened = closed-in-loop +
closed-on-exit), no output artifact is written, and `create_reel_async` turns
this into job state "failed" carrying that message. -/
theorem C3_zero_clips (env : ReelEnv) (sid : String) (st : ServerState)
    (h : acceptedClips env = []) :
    (create_reel env).result = .error "No clips could be extracted from any video" ∧
      (create_reel env).outputWritten = false ∧
      (create_reel env).opened =
        (create_reel env).closedInLoop + (create_reel env).closedAtEnd ∧
      (create_reel_async env sid st).1.job_status sid = some "failed" ∧
      (create_reel_async env sid st).1.job_results sid =
        some (.error "No clips could be extracted from any video") := by
  have hrun : create_reel env =
      { result := .error "No clips could be extracted from any video",
        outputWritten := false,
        opened := openedCount env, closedInLoop := closedInLoopCount env,
        closedAtEnd := keptCount env,
        overlays := [], boundAudio := none,
        fadeApplied := false, volumeApplied := false } := by
    rw [create_reel, h]
    rfl
  refine ⟨by rw [hrun], by rw [hrun], ?_, ?_, ?_⟩
  · rw [hrun]
    exact opens_eq_closed_add_kept (transformOutcomes env)
  · rw [create_reel_async, hrun]
    simp [dictSet]
  · rw [create_reel_async, hrun]
    simp [dictSet]

/-- C3 witness: with the single missing-file source, zero clips survive and
the job fails with the explicit message, all handles released, nothing
written. -/
theorem C3_zero_clips_witness :
    acceptedClips envNoClips = [] ∧
      ((create_reel envNoClips).result =
          .error "No clips could be extracted from any video" ∧
        (create_reel envNoClips).outputWritten = false ∧
        (create_reel envNoClips).opened =
          (create_reel envNoClips).closedInLoop + (create_reel envNoClips).closedAtEnd ∧
        (create_reel_async envNoClips "sid" stateIdle).1.job_status "sid" =
          some "failed" ∧
        (create_reel_async envNoClips "sid" stateIdle).1.job_results "sid" =
          some (.error "No clips could be extracted from any video")) :=
  ⟨rfl, C3_zero_clips envNoClips "sid" stateIdle rfl⟩

/-- C7: failures of the best-effort features — caption construction, fade
application, volume application, music decode — never fail the render: with at
least one surviving clip and working concatenation and encoding, `create_reel`
returns the output path and writes the artifact for every combination of
best-effort failures, and each failed feature is omitted (no overlays, no
bound audio, no fade, no volume change). -/
theorem C7_best_effort (env : ReelEnv) (h1 : acceptedClips env ≠ [])
    (h2 : env.concatRaises = false) (h3 : env.writeRaises = false) :
    (create_reel env).result = .ok ("outputs/" ++ env.output_filename) ∧
      (create_reel env).outputWritten = true ∧
      (env.captionStageRaises = true → (create_reel env).overlays = []) ∧
      (∀ m, env.music = some m → m.decodeRaises = true →
        (create_reel env).boundAudio = none) ∧
      (∀ m, env.music = some m → m.fadeRaises = true →
        (create_reel env).fadeApplied = false) ∧
      (∀ m, env.music = some m → m.volumeRaises = true →
        (create_reel env).volumeApplied = false) := by
  have hne : (acceptedClips env).isEmpty = false := by
    cases hc : acceptedClips env with
    | nil => exact absurd hc h1
    | cons a l => rfl
  have hrun : create_reel env =
      { result := .ok ("outputs/" ++ env.output_filename),
        outputWritten := true,
        opened := openedCount env, closedInLoop := closedInLoopCount env,
        closedAtEnd := keptCount env,
        overlays := reelOverlays env, boundAudio := reelBoundAudio env,
        fadeApplied := reelFadeApplied env, volumeApplied := reelVolumeApplied env } := by
    rw [create_reel, hne, h2, h3]
    rfl
  refine ⟨by rw [hrun], by rw [hrun], ?_, ?_, ?_, ?_⟩
  · intro hcap
    rw [hrun]
    show reelOverlays env = []
    rw [reelOverlays]
    split_ifs <;> rfl
  · intro m hm hdec
    rw [hrun]
    show reelBoundAudio env = none
    rw [reelBoundAudio, hm]
    simp [hdec]
  · intro m hm hfade
    rw [hrun]
    show reelFadeApplied env = false
    rw [reelFadeApplied, hm]
    simp [hfade]
  · intro m hm hvol
    rw [hrun]
    show reelVolumeApplied env = false
    rw [reelVolumeApplied, hm]
    simp [hvol]

/-- C7 witness: the concrete environment with a failing caption stage and a
music track whose decode/fade/volume all fail still renders successfully and
omits each feature. -/
theorem C7_best_effort_witness :
    (acceptedClips envBestEffort ≠ [] ∧ envBestEffort.concatRaises = false ∧
        envBestEffort.writeRaises = false) ∧
      ((create_reel envBestEffort).result =
          .ok ("outputs/" ++ envBestEffort.output_filename) ∧
        (create_reel envBestEffort).outputWritten = true ∧
        (envBestEffort.captionStageRaises = true →
          (create_reel envBestEffort).overlays = []) ∧
        (∀ m, envBestEffort.music = some m → m.decodeRaises = true →
          (create_reel envBestEffort).boundAudio = none) ∧
        (∀ m, envBestEffort.music = some m → m.fadeRaises = true →
          (create_reel envBestEffort).fadeApplied = false) ∧
        (∀ m, envBestEffort.music = some m → m.volumeRaises = true →
          (create_reel envBestEffort).volumeApplied = false)) := by
  have hstep : processVideo false videoGood10 none =
      .accept { trim_start := 0, trim_end := 10, muted := false, cropped := true } := by
    rw [processVideo, videoGood10]
    norm_num [computeTrim]
  have hacc : acceptedClips envBestEffort =
      [{ trim_start := 0, trim_end := 10, muted := false, cropped := true }] := by
    rw [acceptedClips, transformOutcomes]
    show (transformLoop false (buildSettingsMap [] 1) 0
        [videoGood10]).filterMap stepClip = _
    rw [transformLoop, transformLoop,
      show buildSettingsMap [] 1 0 = none from rfl, hstep]
    rfl
  have hne : acceptedClips envBestEffort ≠ [] := by
    rw [hacc]
    simp
  exact ⟨⟨hne, rfl, rfl⟩, C7_best_effort envBestEffort hne rfl rfl⟩

/-- C4 counterexample: the claim says every returned moment of a fully
decodable 10s clip has length in `[2.5, 4]`; on the code, when the top-scored
sample sits at `t = 8` and the drawn length is 3, the overrun shrink keeps the
moment `(8, 1.9)` — length 1.9 is below 2.5. -/
theorem C4_counterexample :
    detect_interesting_moments (some videoSpikeAt8) rndLen3 2 =
        [(8, 19/10), (0, 3)] ∧
      ¬ ((5 : ℚ)/2 ≤ 19/10) := by
  refine ⟨?_, by norm_num⟩
  have hproj1 : videoSpikeAt8.durationRaises = false := rfl
  have hproj2 : videoSpikeAt8.duration = some (10 : ℚ) := rfl
  have hcr : (videoSpikeAt8.readerOk && (videoSpikeAt8.frame 0).isSome) = true := rfl
  have hsc : min 15 (⌊(10 : ℚ)⌋.toNat) = 10 := by
    norm_num
    rfl
  have hms : motionLoop videoSpikeAt8 10 ((10 : ℚ) / ((10 : ℕ) : ℚ)) (List.range 10) =
      [(0, 0), (1, 0), (2, 0), (3, 0), (4, 0), (5, 0), (6, 0), (7, 0),
        (8, 100), (9, 0)] := by
    rw [show ((10 : ℚ) / ((10 : ℕ) : ℚ)) = 1 from by norm_num,
      show List.range 10 = [0, 1, 2, 3, 4, 5, 6, 7, 8, 9] from rfl]
    norm_num [motionLoop, videoSpikeAt8, meanAbsDiff, min_def]
  have hsort : sortByScoreDesc
      [((0 : ℚ), (0 : ℚ)), (1, 0), (2, 0), (3, 0), (4, 0), (5, 0), (6, 0), (7, 0),
        (8, 100), (9, 0)] =
      [(8, 100), (0, 0), (1, 0), (2, 0), (3, 0), (4, 0), (5, 0), (6, 0), (7, 0),
        (9, 0)] := by
    norm_num [sortByScoreDesc, insertByScore]
  have hsel : selectMoments 10 rndLen3.lens
      [((8 : ℚ), (100 : ℚ)), (0, 0), (1, 0), (2, 0), (3, 0), (4, 0), (5, 0), (6, 0),
        (7, 0), (9, 0)] 2 =
      [(8, 19/10), (0, 3)] := by
    norm_num [selectMoments, adjustMoment, rndLen3,
      show List.range 2 = [0, 1] from rfl]
  rw [detect_interesting_moments]
  dsimp only
  rw [hproj1]
  simp only [Bool.false_eq_true, if_false]
  rw [hproj2]
  dsimp only
  rw [if_neg (by norm_num : ¬ (10 : ℚ) ≤ 0), if_neg (by norm_num : ¬ (10 : ℚ) < 2)]
  rw [hcr]
  rw [if_neg (by simp : ¬ (true = false))]
  rw [hsc, hms]
  rw [if_neg (by simp :
    ¬ (List.isEmpty [((0 : ℚ), (0 : ℚ)), (1, 0), (2, 0), (3, 0), (4, 0), (5, 0),
        (6, 0), (7, 0), (8, 100), (9, 0)] = true))]
  rw [hsort]
  rw [show min 2 (List.length [((0 : ℚ), (0 : ℚ)), (1, 0), (2, 0), (3, 0), (4, 0),
      (5, 0), (6, 0), (7, 0), (8, 100), (9, 0)]) = 2 from by norm_num]
  exact hsel

/-- C4 as amended: on a fully decodable 10s clip with default `num_clips = 2`
and length draws in `[2.5, 4]`, the analyzer returns exactly 2 moments, and
every returned moment satisfies `start ≥ 0`, `length ∈ [1, 4]` and
`start + length ≤ 10` — the tail-overrun shrink can cut a length down to 1s,
below the claimed 2.5s lower bound, but never below 1s. -/
theorem C4_two_moments (v : VideoHandle) (rnd : RandOracle)
    (hdr : v.durationRaises = false) (hd : v.duration = some 10)
    (hro : v.readerOk = true)
    (hframe : ∀ t, (v.frame t).isSome = true)
    (hlen : ∀ i, 5/2 ≤ rnd.lens i ∧ rnd.lens i ≤ 4) :
    (detect_interesting_moments (some v) rnd 2).length = 2 ∧
      ∀ m ∈ detect_interesting_moments (some v) rnd 2,
        0 ≤ m.1 ∧ 1 ≤ m.2 ∧ m.2 ≤ 4 ∧ m.1 + m.2 ≤ 10 := by
  have hcr : (v.readerOk && (v.frame 0).isSome) = true := by
    rw [hro, hframe 0]
    rfl
  have hsc : min 15 (⌊(10 : ℚ)⌋.toNat) = 10 := by
    norm_num
    rfl
  have hsi : (10 : ℚ) / ((10 : ℕ) : ℚ) = 1 := by norm_num
  have hmslen : (motionLoop v 10 1 (List.range 10)).length = 10 := by
    rw [motionLoop_length_full v 10 1 hframe (List.range 10) ?_, List.length_range]
    intro i hi
    rw [List.mem_range] at hi
    have hic : (i : ℚ) ≤ 9 := by exact_mod_cast Nat.lt_succ_iff.mp hi
    rw [mul_one]
    linarith
  have hne : (motionLoop v 10 1 (List.range 10)).isEmpty = false := by
    cases hms' : motionLoop v 10 1 (List.range 10) with
    | nil => rw [hms'] at hmslen; simp at hmslen
    | cons a l => rfl
  have hdet : detect_interesting_moments (some v) rnd 2 =
      selectMoments 10 rnd.lens (sortByScoreDesc (motionLoop v 10 1 (List.range 10)))
        (min 2 (motionLoop v 10 1 (List.range 10)).length) := by
    rw [detect_interesting_moments]
    dsimp only
    rw [hdr]
    simp only [Bool.false_eq_true, if_false]
    rw [hd]
    dsimp only
    rw [if_neg (by norm_num : ¬ (10 : ℚ) ≤ 0), if_neg (by norm_num : ¬ (10 : ℚ) < 2)]
    rw [hcr]
    rw [if_neg (by simp : ¬ (true = false))]
    rw [hsc, hsi]
    rw [hne]
    simp only [Bool.false_eq_true, if_false]
  rw [hdet, hmslen, show min 2 10 = 2 from by norm_num]
  constructor
  · exact selectMoments_length _ _ _ _
  · intro m hm
    obtain ⟨i, hi, hmi⟩ := selectMoments_mem _ _ _ _ m hm
    have hilt : i < (sortByScoreDesc (motionLoop v 10 1 (List.range 10))).length := by
      rw [sortByScoreDesc_length, hmslen]
      omega
    have hsmem := getD_mem _ i ((0 : ℚ), (0 : ℚ)) hilt
    have hmsmem := sortByScoreDesc_mem _ _ hsmem
    have hbound := motionLoop_mem v 10 1 (by norm_num) (List.range 10) _ hmsmem
    rw [hmi]
    exact adjustMoment_bounds 10 _ (rnd.lens i) (by norm_num) hbound.1
      (hlen i).1 (hlen i).2

/-- C4 amended witness: the concrete flat 10s clip with all length draws equal
to 3 yields exactly two in-bounds moments. -/
theorem C4_two_moments_witness :
    (videoFlat10.durationRaises = false ∧ videoFlat10.duration = some 10 ∧
        videoFlat10.readerOk = true ∧
        (∀ t, (videoFlat10.frame t).isSome = true) ∧
        (∀ i, 5/2 ≤ rndLen3.lens i ∧ rndLen3.lens i ≤ 4)) ∧
      ((detect_interesting_moments (some videoFlat10) rndLen3 2).length = 2 ∧
        ∀ m ∈ detect_interesting_moments (some videoFlat10) rndLen3 2,
          0 ≤ m.1 ∧ 1 ≤ m.2 ∧ m.2 ≤ 4 ∧ m.1 + m.2 ≤ 10) :=
  ⟨⟨rfl, rfl, rfl, fun _ => rfl, fun _ => by norm_num [rndLen3]⟩,
    C4_two_moments videoFlat10 rndLen3 rfl rfl rfl (fun _ => rfl)
      (fun _ => by norm_num [rndLen3])⟩

end PPStory
